import Mathlib

/-!
Verification development for the nflight_explorer repository.

The Python sources are shallowly embedded as executable Lean definitions:
JSON payloads become the inductive `JValue`; Python truthiness, `str.strip`,
`str.upper`, digit extraction and list slicing are modelled explicitly; the
SQLite store is modelled as an explicit state with a pending/durable split
reflecting sqlite3's deferred-transaction semantics (DML statements open an
implicit transaction that becomes durable only at `conn.commit()`; a
connection dropped without commit rolls back).  Rational numbers stand in
for Python floats; third-party numeric routines (scikit-learn's scaler and
k-means) sit at the boundary and are passed in as an opaque labelling
function, exactly as the upstream HTTP response body is passed in as data.
-/

/-- JSON values as produced by `resp.json()` in `flight_api_client.py`.
Python `None` and JSON `null` coincide (`json.loads` maps `null` to `None`),
so a single `null` constructor models both. -/
inductive JValue : Type
  | null : JValue
  | bool : Bool → JValue
  | num : ℚ → JValue
  | str : String → JValue
  | arr : List JValue → JValue
  | obj : List (String × JValue) → JValue

/-- Python truthiness on optional strings: `None` and `""` are falsy. -/
def pyTruthyStr : Option String → Bool
  | none => false
  | some s => !s.isEmpty

/-- Python truthiness on JSON values: `None`, `False`, `0`, `""`, `[]`, `{}`
are falsy, everything else truthy. -/
def pyTruthyJ : JValue → Bool
  | .null => false
  | .bool b => b
  | .num q => decide (q ≠ 0)
  | .str s => !s.isEmpty
  | .arr l => !l.isEmpty
  | .obj l => !l.isEmpty

/-- Python `str.strip()` (whitespace at both ends), structurally over the
character list. -/
def pyStrip (s : String) : String :=
  String.mk (((s.toList.dropWhile Char.isWhitespace).reverse.dropWhile Char.isWhitespace).reverse)

/-- Python `str.upper()` (ASCII model), structurally over the character
list. -/
def pyUpper (s : String) : String := String.mk (s.toList.map Char.toUpper)

/-- The digit extraction `"".join(ch for ch in clean if ch.isdigit())` from
`AirLabsClient.search_flights`. -/
def extractDigits (s : String) : String := String.mk (s.toList.filter Char.isDigit)

/-- `FlightSearchParams` from flight_api_client.py lines 16-28. -/
structure FlightSearchParams : Type where
  flight_code : Option String := none
  dep_iata : Option String := none
  arr_iata : Option String := none
  limit : Int := 50

/-- Errors raised by the client: the provider error raised in
`AirLabsClient._get` carries the (arbitrary JSON) `error.code` and
`error.message` values; `attributeError` models the `AttributeError` hit when
a truthy `error` value is not a dict yet `err.get` is called on it. -/
inductive ApiErr : Type
  | providerError : JValue → JValue → ApiErr
  | attributeError : ApiErr

/-- `AirLabsClient.__init__` (flight_api_client.py lines 34-47):
`self.api_key = api_key or AIRLABS_API_KEY`, then a `ValueError` when the
resulting key is falsy.  The environment-derived constant is a parameter. -/
def airLabsInit (api_key envKey : Option String) : Except String String :=
  let key : Option String := if pyTruthyStr api_key then api_key else envKey
  if pyTruthyStr key then .ok (key.getD "")
  else .error "AirLabs API key is missing. Set AIRLABS_API_KEY in your environment or .env file."

/-- The query dict built by `AirLabsClient.search_flights`
(flight_api_client.py lines 75-91), as an association list in insertion
order.  A filter key is added only when the corresponding Python branch
runs: `dep_iata`/`arr_iata` when truthy, `flight_iata` when the stripped
uppercased code is non-empty, `flight_number` when additionally the
extracted digits are non-empty. -/
def searchQuery (p : FlightSearchParams) : List (String × String) :=
  (if pyTruthyStr p.dep_iata then
    [("dep_iata", pyUpper (pyStrip (p.dep_iata.getD "")))] else [])
  ++ (if pyTruthyStr p.arr_iata then
    [("arr_iata", pyUpper (pyStrip (p.arr_iata.getD "")))] else [])
  ++ (if pyTruthyStr p.flight_code then
      (if (pyUpper (pyStrip (p.flight_code.getD ""))).isEmpty then []
       else ("flight_iata", pyUpper (pyStrip (p.flight_code.getD ""))) ::
         (if (extractDigits (pyUpper (pyStrip (p.flight_code.getD "")))).isEmpty then []
          else [("flight_number", extractDigits (pyUpper (pyStrip (p.flight_code.getD ""))))]))
     else [])

/-- `AirLabsClient._get`'s handling of the parsed body (flight_api_client.py
lines 58-67): on a dict whose `error` entry is truthy, raise; a dict-shaped
error yields the provider error built from `err.get("code", ...)` and
`err.get("message", ...)`, a non-dict truthy error value makes `err.get`
blow up with an `AttributeError`.  Otherwise the payload is returned. -/
def modelGet (data : JValue) : Except ApiErr JValue :=
  match data with
  | .obj l =>
    match List.lookup "error" l with
    | some e =>
      if pyTruthyJ e then
        match e with
        | .obj ef =>
          .error (.providerError ((List.lookup "code" ef).getD (.str "unknown_error"))
            ((List.lookup "message" ef).getD (.str "Unknown AirLabs API error")))
        | _ => .error .attributeError
      else .ok data
    | none => .ok data
  | _ => .ok data

/-- Result unwrapping in `AirLabsClient.search_flights`
(flight_api_client.py lines 94-111): `records = data.get("response") or
data.get("data")`; a list `records` is the result; a dict `records`
containing `"flights"` yields that entry (then the final
`isinstance(flights, list)` check turns a non-list into `[]`); a bare
top-level list payload is the result; anything else yields `[]`. -/
def unwrapResponse (data : JValue) : List JValue :=
  let records : JValue :=
    match data with
    | .obj l =>
      let a := (List.lookup "response" l).getD .null
      if pyTruthyJ a then a else (List.lookup "data" l).getD .null
    | _ => .null
  match records with
  | .arr fl => fl
  | .obj o =>
    match List.lookup "flights" o with
    | some (.arr fl) => fl
    | some _ => []
    | none => match data with | .arr l => l | _ => []
  | _ => match data with | .arr l => l | _ => []

/-- Python slicing `l[:k]` for an integer `k` (negative `k` keeps all but
the last `-k` elements). -/
def pySlice (l : List α) (k : Int) : List α :=
  if 0 ≤ k then l.take k.toNat else l.take (l.length - (-k).toNat)

/-- Client-side truncation (flight_api_client.py lines 113-115):
`if params.limit and len(flights) > params.limit: flights = flights[:params.limit]`. -/
def pyTruncate (limit : Int) (l : List α) : List α :=
  if limit ≠ 0 ∧ (l.length : Int) > limit then pySlice l limit else l

/-- `AirLabsClient.search_flights` applied to the parsed JSON body the
upstream returned for the outgoing query (the HTTP exchange itself is the
boundary): error handling from `_get`, then unwrapping, then truncation. -/
def search_flights (p : FlightSearchParams) (data : JValue) : Except ApiErr (List JValue) :=
  match modelGet data with
  | .error e => .error e
  | .ok d => .ok (pyTruncate p.limit (unwrapResponse d))

/-- Whether `_get` raises on a payload: a dict whose `error` entry exists
and is truthy. -/
def hasActiveError : JValue → Bool
  | .obj l =>
    match List.lookup "error" l with
    | some e => pyTruthyJ e
    | none => false
  | _ => false

/-- One flattened row produced by `flights_to_dataframe`
(flight_api_client.py lines 134-153): each of the 15 fixed columns holds
`item.get(col)`, i.e. `none` models a missing key (pandas "no value"). -/
structure FlatRow : Type where
  flight_iata : Option JValue
  flight_number : Option JValue
  airline_iata : Option JValue
  airline_icao : Option JValue
  dep_iata : Option JValue
  dep_icao : Option JValue
  arr_iata : Option JValue
  arr_icao : Option JValue
  status : Option JValue
  lat : Option JValue
  lng : Option JValue
  alt : Option JValue
  speed : Option JValue
  dir : Option JValue
  updated : Option JValue

/-- The row dict built for one raw record. -/
def rowOf (item : List (String × JValue)) : FlatRow :=
  { flight_iata := List.lookup "flight_iata" item
    flight_number := List.lookup "flight_number" item
    airline_iata := List.lookup "airline_iata" item
    airline_icao := List.lookup "airline_icao" item
    dep_iata := List.lookup "dep_iata" item
    dep_icao := List.lookup "dep_icao" item
    arr_iata := List.lookup "arr_iata" item
    arr_icao := List.lookup "arr_icao" item
    status := List.lookup "status" item
    lat := List.lookup "lat" item
    lng := List.lookup "lng" item
    alt := List.lookup "alt" item
    speed := List.lookup "speed" item
    dir := List.lookup "dir" item
    updated := List.lookup "updated" item }

/-- Total comparison on JSON values standing in for pandas' value
comparison during `sort_values` (only the relative order of the string/null
cells that actually occur in the sort columns matters to any claim; a total
order is the boundary model of the third-party sort). -/
def jrank : JValue → Nat
  | .null => 0
  | .bool _ => 1
  | .num _ => 2
  | .str _ => 3
  | .arr _ => 4
  | .obj _ => 5

/-- Compare two JSON scalars; distinct shapes order by rank. -/
def cmpJ (a b : JValue) : Ordering :=
  match a, b with
  | .num x, .num y => if x < y then .lt else if y < x then .gt else .eq
  | .str x, .str y => compare x y
  | .bool x, .bool y => compare x y
  | _, _ => compare (jrank a) (jrank b)

/-- Missing cells (pandas NaN) sort last in an ascending sort. -/
def cmpCell : Option JValue → Option JValue → Ordering
  | none, none => .eq
  | none, some _ => .gt
  | some _, none => .lt
  | some x, some y => cmpJ x y

/-- Lexicographic sort key of `df.sort_values(["dep_iata", "arr_iata",
"airline_iata", "flight_number"])` (flight_api_client.py lines 156-159). -/
def rowKeyCmp (a b : FlatRow) : Ordering :=
  (cmpCell a.dep_iata b.dep_iata).then
    ((cmpCell a.arr_iata b.arr_iata).then
      ((cmpCell a.airline_iata b.airline_iata).then
        (cmpCell a.flight_number b.flight_number)))

/-- The (total, decidable) sort relation used by the embedded sort. -/
def rowLe (a b : FlatRow) : Prop := rowKeyCmp a b ≠ .gt

instance : DecidableRel rowLe := fun a b =>
  (inferInstance : Decidable (rowKeyCmp a b ≠ .gt))

/-- `flights_to_dataframe` (flight_api_client.py lines 120-161): one
`FlatRow` per record via `rowOf`, then the dataset is sorted by the four
sort columns (all four always exist here since every row dict carries all
15 keys; sorting the empty frame is the identity either way). -/
def flights_to_dataframe (records : List (List (String × JValue))) : List FlatRow :=
  List.insertionSort rowLe (records.map rowOf)

/-! ### Persistent store (db.py) -/

/-- One row of the `searches` table (db.py lines 40-52). -/
structure SearchRow : Type where
  id : Nat
  searched_at : String
  dep_iata : Option String
  arr_iata : Option String
  flight_code : Option String
  limit_value : Int
  results_count : Nat

/-- One row of the `flights` table (db.py lines 55-78): the autoincrement
id, the `search_id` foreign key, and the 15 snapshot columns. -/
structure FlightSnapRow : Type where
  id : Nat
  search_id : Nat
  data : FlatRow

/-- The database contents plus the autoincrement counters. -/
structure DB : Type where
  searches : List SearchRow
  flights : List FlightSnapRow
  nextSearchId : Nat
  nextFlightId : Nat

/-- `int(len(flights_df)) if flights_df is not None else 0`
(db.py line 100). -/
def resultsCount (fdf : Option (List FlatRow)) : Nat :=
  match fdf with
  | none => 0
  | some l => l.length

/-- The `flights` rows built by the `iterrows` loop and inserted by the one
`executemany` (db.py lines 113-160): one row per dataset row, in order,
each carrying the generated `search_id` and a fresh autoincrement id. -/
def mkFlightRowsAux (fid sid : Nat) : List FlatRow → List FlightSnapRow
  | [] => []
  | r :: rs => ⟨fid, sid, r⟩ :: mkFlightRowsAux (fid + 1) sid rs

/-- The bulk-insert payload for an optional dataset. -/
def mkFlightRows (fid sid : Nat) (fdf : Option (List FlatRow)) : List FlightSnapRow :=
  match fdf with
  | none => []
  | some l => mkFlightRowsAux fid sid l

/-- `log_search_and_flights` (db.py lines 84-164) on the failure-free path:
insert one `searches` row (its id is `cur.lastrowid`), then, only when
`results_count > 0`, bulk-insert the `flights` rows; return the id.  The
`searched_at` timestamp is a parameter (the wall clock is a boundary). -/
def log_search_and_flights (db : DB) (dep arr code : Option String) (lim : Int)
    (fdf : Option (List FlatRow)) (ts : String) : DB × Nat :=
  let cnt := resultsCount fdf
  let sid := db.nextSearchId
  let db1 : DB :=
    { db with
      searches := db.searches ++ [⟨sid, ts, dep, arr, code, lim, cnt⟩]
      nextSearchId := sid + 1 }
  let db2 : DB :=
    if cnt > 0 then
      { db1 with
        flights := db1.flights ++ mkFlightRows db.nextFlightId sid fdf
        nextFlightId := db.nextFlightId + cnt }
    else db1
  (db2, sid)

/-- A sqlite3 connection under the driver's deferred-transaction semantics:
DML statements act on the pending (uncommitted) state; only
`conn.commit()` publishes it to the durable database; a connection dropped
without commit rolls its open transaction back. -/
structure Conn : Type where
  durable : DB
  pending : DB

/-- `get_connection()`: a fresh connection sees the durable state. -/
def openConn (db : DB) : Conn := ⟨db, db⟩

/-- The `INSERT INTO searches` statement (db.py lines 103-110): writes the
pending state and yields `cur.lastrowid`. -/
def execInsertSearch (c : Conn) (row : SearchRow) : Conn × Nat :=
  (⟨c.durable,
    { c.pending with
      searches := c.pending.searches ++ [row]
      nextSearchId := c.pending.nextSearchId + 1 }⟩,
   row.id)

/-- One `INSERT INTO flights` performed by the `executemany`. -/
def execInsertFlight (c : Conn) (sid : Nat) (r : FlatRow) : Conn :=
  ⟨c.durable,
   { c.pending with
     flights := c.pending.flights ++ [⟨c.pending.nextFlightId, sid, r⟩]
     nextFlightId := c.pending.nextFlightId + 1 }⟩

/-- `conn.commit()`: the pending state becomes durable. -/
def commitConn (c : Conn) : Conn := ⟨c.pending, c.pending⟩

/-- The `executemany` loop with fault injection: `failAt = some j` makes
the insert of row `j` (0-based) raise.  On failure the connection as of the
exception is returned on the error side. -/
def insertLoop (sid : Nat) (failAt : Option Nat) :
    List FlatRow → Nat → Conn → Except Conn Conn
  | [], _, c => .ok c
  | r :: rs, j, c =>
    if failAt = some j then .error c
    else insertLoop sid failAt rs (j + 1) (execInsertFlight c sid r)

/-- `log_search_and_flights` with the transaction machinery explicit and a
fault-injection point in the bulk flight insert.  On the failure path the
exception propagates before `conn.commit()` runs and the connection is
dropped without commit, so its durable state is returned unchanged; on
success the single commit publishes both inserts.  The second component is
the durable database after the call. -/
def log_call (db : DB) (dep arr code : Option String) (lim : Int)
    (fdf : Option (List FlatRow)) (ts : String) (failAt : Option Nat) :
    Except Unit Nat × DB :=
  let c0 := openConn db
  let cnt := resultsCount fdf
  let p := execInsertSearch c0 ⟨db.nextSearchId, ts, dep, arr, code, lim, cnt⟩
  if cnt > 0 then
    match insertLoop p.2 failAt (fdf.getD []) 0 p.1 with
    | .error cf => (.error (), cf.durable)
    | .ok c2 => (.ok p.2, (commitConn c2).durable)
  else (.ok p.2, (commitConn p.1).durable)

/-! ### Popular-route scorer (popular_routes.py) -/

/-- One row of the loaded search history: both legs non-null and a
successfully parsed UTC timestamp (modelled as rational epoch seconds). -/
structure SearchHist : Type where
  dep : String
  arr : String
  searched_at : ℚ

/-- The route key `df["dep_iata"] + " → " + df["arr_iata"]`. -/
def routeOf (h : SearchHist) : String := h.dep ++ " → " ++ h.arr

/-- `age_minutes` of one row (popular_routes.py lines 64-68): elapsed
minutes since the search, clipped below at 0. -/
def ageMinutes (now t : ℚ) : ℚ := max 0 ((now - t) / 60)

/-- The per-row recency score `max(0.1, 1 / (1 + x / 30.0))`
(popular_routes.py lines 71-73). -/
def recencyRow (now t : ℚ) : ℚ := max (1 / 10) (1 / (1 + ageMinutes now t / 30))

/-- The distinct route keys of the history (the groupby keys; their
pre-sort order is immaterial since the result is re-sorted by score). -/
def routeKeys (rows : List SearchHist) : List String := (rows.map routeOf).dedup

/-- Per-route search count (the groupby `size`). -/
def countOf (rows : List SearchHist) (r : String) : Nat :=
  (rows.filter fun h => routeOf h == r).length

/-- Per-route summed recency score. -/
def recencySum (now : ℚ) (rows : List SearchHist) (r : String) : ℚ :=
  ((rows.filter fun h => routeOf h == r).map fun h => recencyRow now h.searched_at).sum

/-- Per-route most recent timestamp (nonempty for every groupby key). -/
def lastOf (rows : List SearchHist) (r : String) : Option ℚ :=
  ((rows.filter fun h => routeOf h == r).map fun h => h.searched_at).max?

/-- One `PopularRouteScore` record of the merged frame. -/
structure RouteScore : Type where
  route : String
  count : Nat
  recency_score : ℚ
  score : ℚ
  last_searched : Option ℚ

/-- The merged per-route frame before the final sort
(popular_routes.py lines 60-87): count, summed recency, the blended
`score = 0.7 * count + 0.3 * recency_score`, and the last search time. -/
def mergedEntries (now : ℚ) (rows : List SearchHist) : List RouteScore :=
  (routeKeys rows).map fun r =>
    { route := r
      count := countOf rows r
      recency_score := recencySum now rows r
      score := 7 / 10 * (countOf rows r : ℚ) + 3 / 10 * recencySum now rows r
      last_searched := lastOf rows r }

/-- Descending-score order used by `sort_values("score", ascending=False)`. -/
def scoreGE (a b : RouteScore) : Prop := b.score ≤ a.score

instance : DecidableRel scoreGE := fun a b =>
  (inferInstance : Decidable (b.score ≤ a.score))

instance : IsTotal RouteScore scoreGE := ⟨fun a b => le_total b.score a.score⟩

instance : IsTrans RouteScore scoreGE := ⟨fun _ _ _ hab hbc => le_trans hbc hab⟩

/-- `compute_popular_routes` (popular_routes.py lines 45-92): empty history
yields the empty frame; otherwise the merged per-route frame is sorted by
score descending and truncated to `top_k` by `head`. -/
def compute_popular_routes (now : ℚ) (rows : List SearchHist) (top_k : Nat) :
    List RouteScore :=
  if rows.isEmpty then []
  else (List.insertionSort scoreGE (mergedEntries now rows)).take top_k

/-! ### Clustering module (ml_models.py) -/

/-- One row of the dataset handed to the clustering module: the two feature
cells (a `none` cell is a pandas null) and the row's remaining columns as
an opaque payload `α`. -/
structure MLRow (α : Type) : Type where
  alt : Option ℚ
  speed : Option ℚ
  extra : α

/-- A dataset: whether the `alt`/`speed` columns exist at all, and the
rows. -/
structure MLFrame (α : Type) : Type where
  hasAlt : Bool
  hasSpeed : Bool
  rows : List (MLRow α)

/-- A row of the returned annotated dataset: the original cells plus the
(nullable-integer) `cluster` cell. -/
structure MLRowC (α : Type) : Type where
  alt : Option ℚ
  speed : Option ℚ
  extra : α
  cluster : Option ℤ

/-- The returned dataset. -/
structure MLFrameC (α : Type) : Type where
  hasAlt : Bool
  hasSpeed : Bool
  rows : List (MLRowC α)

/-- The row mask `df["alt"].notna() & df["speed"].notna()`
(ml_models.py line 31). -/
def validRow (r : MLRow α) : Bool := r.alt.isSome && r.speed.isSome

/-- Drop the `cluster` column (to compare the output with the input). -/
def stripCluster (df : MLFrameC α) : MLFrame α :=
  ⟨df.hasAlt, df.hasSpeed, df.rows.map fun r => ⟨r.alt, r.speed, r.extra⟩⟩

/-- `df.loc[mask, "cluster"] = cluster_labels; df.loc[~mask, "cluster"] =
np.nan` (ml_models.py lines 48-49): the j-th masked row receives the j-th
label, unmasked rows receive the null cell. -/
def assignClusters (labels : List ℤ) : List (MLRow α) → Nat → List (MLRowC α)
  | [], _ => []
  | r :: rs, j =>
    if validRow r then ⟨r.alt, r.speed, r.extra, labels[j]?⟩ :: assignClusters labels rs (j + 1)
    else ⟨r.alt, r.speed, r.extra, none⟩ :: assignClusters labels rs j

/-- `cluster_flights_by_alt_speed` (ml_models.py lines 11-54).  The
scikit-learn scaling-plus-k-means pipeline is the third-party boundary and
enters as the opaque `kfit`, mapping the valid rows' raw (alt, speed)
pairs to their integer labels; the fitted model is represented by the label
list it produces.  Missing column or fewer valid rows than `n_clusters`:
every `cluster` cell is null and no model is returned. -/
def cluster_flights_by_alt_speed (df : MLFrame α) (n_clusters : Nat)
    (kfit : List (ℚ × ℚ) → List ℤ) : MLFrameC α × Option (List ℤ) :=
  if !df.hasAlt || !df.hasSpeed then
    (⟨df.hasAlt, df.hasSpeed, df.rows.map fun r => ⟨r.alt, r.speed, r.extra, none⟩⟩, none)
  else
    if (df.rows.filter validRow).length < n_clusters then
      (⟨df.hasAlt, df.hasSpeed, df.rows.map fun r => ⟨r.alt, r.speed, r.extra, none⟩⟩, none)
    else
      let labels := kfit ((df.rows.filter validRow).map fun r => (r.alt.getD 0, r.speed.getD 0))
      (⟨df.hasAlt, df.hasSpeed, assignClusters labels df.rows 0⟩, some labels)

/-! ### Theorems -/

/-- C10: construction of the Provider B client raises the missing-key error
iff both the argument and the environment-derived key are falsy (absent or
empty); a falsy argument with a truthy environment key silently falls back
to the environment key. -/
theorem C10_init_key_fallback (a e : Option String) :
    ((∃ m, airLabsInit a e = .error m) ↔ (pyTruthyStr a = false ∧ pyTruthyStr e = false))
    ∧ (pyTruthyStr a = false → pyTruthyStr e = true → airLabsInit a e = .ok (e.getD "")) := by
  cases ha : pyTruthyStr a <;> cases he : pyTruthyStr e <;>
    simp [airLabsInit, ha, he]

/-- C10 witness: an explicitly passed empty key falls back to the
environment key. -/
theorem C10_init_key_fallback_witness :
    airLabsInit (some "") (some "SECRET") = .ok "SECRET" :=
  (C10_init_key_fallback (some "") (some "SECRET")).2 rfl rfl

theorem mkFlightRowsAux_length (sid : Nat) :
    ∀ (l : List FlatRow) (fid : Nat), (mkFlightRowsAux fid sid l).length = l.length := by
  intro l
  induction l with
  | nil => intro fid; rfl
  | cons r rs ih => intro fid; simp [mkFlightRowsAux, ih]

theorem mkFlightRowsAux_sid (sid : Nat) :
    ∀ (l : List FlatRow) (fid : Nat),
      ((mkFlightRowsAux fid sid l).all fun f => f.search_id == sid) = true := by
  intro l
  induction l with
  | nil => intro fid; rfl
  | cons r rs ih => intro fid; simp [mkFlightRowsAux, ih]

/-- C1: every call inserts exactly one new `searches` row whose
`results_count` is the dataset's row count (zero when absent), returns its
generated id, and appends exactly `results_count` `flights` rows, each
carrying the returned id as `search_id` (so an empty or absent dataset
appends none). -/
theorem C1_log_search_and_flights (db : DB) (dep arr code : Option String)
    (lim : Int) (fdf : Option (List FlatRow)) (ts : String) :
    (log_search_and_flights db dep arr code lim fdf ts).1.searches
        = db.searches ++ [⟨db.nextSearchId, ts, dep, arr, code, lim, resultsCount fdf⟩]
    ∧ (log_search_and_flights db dep arr code lim fdf ts).2 = db.nextSearchId
    ∧ (log_search_and_flights db dep arr code lim fdf ts).1.flights
        = db.flights ++ mkFlightRows db.nextFlightId db.nextSearchId fdf
    ∧ (mkFlightRows db.nextFlightId db.nextSearchId fdf).length = resultsCount fdf
    ∧ ((mkFlightRows db.nextFlightId db.nextSearchId fdf).all
        fun f => f.search_id == db.nextSearchId) = true := by
  rcases fdf with _ | l
  · simp [log_search_and_flights, resultsCount, mkFlightRows]
  · rcases l with _ | ⟨r, rs⟩
    · simp [log_search_and_flights, resultsCount, mkFlightRows, mkFlightRowsAux]
    · have hpos : 0 < resultsCount (some (r :: rs)) := Nat.succ_pos rs.length
      refine ⟨?_, ?_, ?_, ?_, ?_⟩
      · simp [log_search_and_flights, hpos]
      · simp [log_search_and_flights]
      · simp [log_search_and_flights, hpos]
      · simp [mkFlightRows, mkFlightRowsAux_length, resultsCount]
      · simp [mkFlightRows, mkFlightRowsAux_sid]

/-- C2 counterexample: for flight code "LH" (supplied non-empty, no
digits), the outgoing query carries flight_iata but no flight_number at
all, where the claim demands both. -/
theorem C2_counterexample :
    List.lookup "flight_iata" (searchQuery ⟨some "LH", none, none, 50⟩) = some "LH"
    ∧ List.lookup "flight_number" (searchQuery ⟨some "LH", none, none, 50⟩) = none :=
  ⟨rfl, rfl⟩

/-- C2 amended: dep_iata/arr_iata are forwarded stripped and uppercased
exactly when supplied truthy (non-None, non-empty); when the stripped
uppercased flight code is non-empty the query carries flight_iata set to
it, and carries flight_number, set to the extracted digits, exactly when
at least one digit was extracted. -/
theorem C2_query_filters (p : FlightSearchParams) :
    List.lookup "dep_iata" (searchQuery p)
        = (if pyTruthyStr p.dep_iata then some (pyUpper (pyStrip (p.dep_iata.getD ""))) else none)
    ∧ List.lookup "arr_iata" (searchQuery p)
        = (if pyTruthyStr p.arr_iata then some (pyUpper (pyStrip (p.arr_iata.getD ""))) else none)
    ∧ List.lookup "flight_iata" (searchQuery p)
        = (if pyTruthyStr p.flight_code && !(pyUpper (pyStrip (p.flight_code.getD ""))).isEmpty
           then some (pyUpper (pyStrip (p.flight_code.getD ""))) else none)
    ∧ List.lookup "flight_number" (searchQuery p)
        = (if pyTruthyStr p.flight_code && !(pyUpper (pyStrip (p.flight_code.getD ""))).isEmpty
              && !(extractDigits (pyUpper (pyStrip (p.flight_code.getD "")))).isEmpty
           then some (extractDigits (pyUpper (pyStrip (p.flight_code.getD "")))) else none) := by
  cases hd : pyTruthyStr p.dep_iata <;>
    cases ha : pyTruthyStr p.arr_iata <;>
      cases hf : pyTruthyStr p.flight_code <;>
        cases hc : (pyUpper (pyStrip (p.flight_code.getD ""))).isEmpty <;>
          cases hn : (extractDigits (pyUpper (pyStrip (p.flight_code.getD "")))).isEmpty <;>
            simp [searchQuery, hd, ha, hf, hc, hn, List.lookup]

/-- C7: with a positive requested limit, an unwrapped result list longer
than the limit is truncated to exactly the first `limit` elements, and one
no longer than the limit is returned unchanged. -/
theorem C7_truncation (p : FlightSearchParams) (fl : List JValue) (hpos : 0 < p.limit) :
    ((fl.length : Int) > p.limit →
        search_flights p (.obj [("response", .arr fl)]) = .ok (fl.take p.limit.toNat)
        ∧ (fl.take p.limit.toNat).length = p.limit.toNat)
    ∧ ((fl.length : Int) ≤ p.limit →
        search_flights p (.obj [("response", .arr fl)]) = .ok fl) := by
  have hne : p.limit ≠ 0 := hpos.ne'
  rcases fl with _ | ⟨v, t⟩
  · constructor
    · intro h
      exfalso
      simp only [List.length_nil, Nat.cast_zero] at h
      omega
    · intro _
      have htr : pyTruncate p.limit ([] : List JValue) = [] := by
        rw [pyTruncate, if_neg]
        rintro ⟨-, h2⟩
        simp only [List.length_nil, Nat.cast_zero] at h2
        omega
      calc search_flights p (.obj [("response", .arr ([] : List JValue))])
          = .ok (pyTruncate p.limit ([] : List JValue)) := rfl
        _ = .ok [] := by rw [htr]
  · have e1 : search_flights p (.obj [("response", .arr (v :: t))])
        = .ok (pyTruncate p.limit (v :: t)) := rfl
    constructor
    · intro h
      have e2 : pyTruncate p.limit (v :: t) = (v :: t).take p.limit.toNat := by
        rw [pyTruncate, if_pos ⟨hne, h⟩, pySlice, if_pos (le_of_lt hpos)]
      refine ⟨by rw [e1, e2], ?_⟩
      rw [List.length_take]
      exact Nat.min_eq_left (Int.toNat_le.mpr (le_of_lt h))
    · intro h
      have e2 : pyTruncate p.limit (v :: t) = v :: t := by
        rw [pyTruncate, if_neg]
        rintro ⟨-, h2⟩
        exact absurd h (not_le.mpr h2)
      rw [e1, e2]

/-- C7 witness: a 3-element upstream list with limit 2 comes back as its
first 2 elements. -/
theorem C7_truncation_witness :
    search_flights ⟨none, none, none, 2⟩ (.obj [("response", .arr [.null, .null, .null])])
        = .ok ([JValue.null, .null, .null].take (Int.toNat 2))
    ∧ (([JValue.null, .null, .null]).take (Int.toNat 2)).length = Int.toNat 2 :=
  (C7_truncation ⟨none, none, none, 2⟩ [.null, .null, .null] (by decide)).1 (by decide)

/-- C8: flattening is total, permutes-but-preserves rows (the final sort
only reorders them), and each row's 15 fields are exactly the raw record's
entries — present fields come through unchanged, absent fields become the
null cell ("no value"). -/
theorem C8_flatten_roundtrip (records : List (List (String × JValue)))
    (item : List (String × JValue)) (hmem : item ∈ records) :
    rowOf item ∈ flights_to_dataframe records
    ∧ List.Perm (flights_to_dataframe records) (records.map rowOf)
    ∧ (rowOf item).flight_iata = List.lookup "flight_iata" item
    ∧ (rowOf item).flight_number = List.lookup "flight_number" item
    ∧ (rowOf item).airline_iata = List.lookup "airline_iata" item
    ∧ (rowOf item).airline_icao = List.lookup "airline_icao" item
    ∧ (rowOf item).dep_iata = List.lookup "dep_iata" item
    ∧ (rowOf item).dep_icao = List.lookup "dep_icao" item
    ∧ (rowOf item).arr_iata = List.lookup "arr_iata" item
    ∧ (rowOf item).arr_icao = List.lookup "arr_icao" item
    ∧ (rowOf item).status = List.lookup "status" item
    ∧ (rowOf item).lat = List.lookup "lat" item
    ∧ (rowOf item).lng = List.lookup "lng" item
    ∧ (rowOf item).alt = List.lookup "alt" item
    ∧ (rowOf item).speed = List.lookup "speed" item
    ∧ (rowOf item).dir = List.lookup "dir" item
    ∧ (rowOf item).updated = List.lookup "updated" item := by
  have hperm : List.Perm (flights_to_dataframe records) (records.map rowOf) :=
    List.perm_insertionSort rowLe (records.map rowOf)
  exact ⟨hperm.mem_iff.mpr (List.mem_map_of_mem rowOf hmem), hperm,
    rfl, rfl, rfl, rfl, rfl, rfl, rfl, rfl, rfl, rfl, rfl, rfl, rfl, rfl, rfl⟩

/-- C8 witness: a record with two of the 15 fields set keeps both values
and gets the null cell for a missing field. -/
theorem C8_flatten_roundtrip_witness :
    rowOf [("flight_iata", .str "LH760"), ("lat", .num 50)]
        ∈ flights_to_dataframe [[("flight_iata", .str "LH760"), ("lat", .num 50)]]
    ∧ (rowOf [("flight_iata", .str "LH760"), ("lat", .num 50)]).flight_iata
        = List.lookup "flight_iata" [("flight_iata", .str "LH760"), ("lat", .num 50)]
    ∧ (rowOf [("flight_iata", .str "LH760"), ("lat", .num 50)]).alt
        = List.lookup "alt" [("flight_iata", .str "LH760"), ("lat", .num 50)] := by
  have h := C8_flatten_roundtrip [[("flight_iata", .str "LH760"), ("lat", .num 50)]]
    [("flight_iata", .str "LH760"), ("lat", .num 50)] (List.mem_singleton.mpr rfl)
  exact ⟨h.1, h.2.2.1, h.2.2.2.2.2.2.2.2.2.2.2.2.2.1⟩

/-- C6 counterexample: the payload with a top-level error entry holding the
string "boom" contains no error object, so the claim's fall-through clause
says it yields an empty result list without raising; the code instead
raises (err.get on a non-dict value). -/
theorem C6_counterexample :
    search_flights ⟨none, none, none, 50⟩ (.obj [("error", .str "boom")])
        = .error .attributeError
    ∧ ∀ l : List JValue,
        (Except.error ApiErr.attributeError : Except ApiErr (List JValue)) ≠ .ok l :=
  ⟨rfl, fun _ h => nomatch h⟩

/-- C6 amended: search_flights raises exactly when the payload is a dict
whose top-level error entry is truthy — a provider error carrying
error.code / error.message (with their defaults) when that entry is a
dict, an attribute error otherwise; with no truthy error entry it returns
the unwrapped, truncated results, where unwrapping prefers a truthy
response entry, then the data entry, then a bare top-level list, then a
flights entry inside the unwrapped dict, and yields the empty list for any
other shape. -/
theorem C6_response_unwrapping (p : FlightSearchParams) (data : JValue) :
    ((∃ e, search_flights p data = .error e) ↔ hasActiveError data = true)
    ∧ (hasActiveError data = false →
        search_flights p data = .ok (pyTruncate p.limit (unwrapResponse data)))
    ∧ (∀ (ef rest : List (String × JValue)) (c m : JValue),
        search_flights p (.obj (("error", .obj (("code", c) :: ("message", m) :: ef)) :: rest))
          = .error (.providerError c m))
    ∧ (∀ rest : List (String × JValue),
        search_flights p (.obj (("error", .bool true) :: rest)) = .error .attributeError)
    ∧ (∀ (v : JValue) (fl : List JValue) (rest : List (String × JValue)),
        unwrapResponse (.obj (("response", .arr (v :: fl)) :: rest)) = v :: fl)
    ∧ (∀ (fl : List JValue) (rest : List (String × JValue)),
        unwrapResponse (.obj (("response", .null) :: ("data", .arr fl) :: rest)) = fl)
    ∧ (∀ (fl : List JValue) (rest : List (String × JValue)),
        unwrapResponse (.obj (("response", .arr []) :: ("data", .arr fl) :: rest)) = fl)
    ∧ (∀ l : List JValue, unwrapResponse (.arr l) = l)
    ∧ (∀ (fl : List JValue) (o rest : List (String × JValue)),
        unwrapResponse (.obj (("response", .obj (("flights", .arr fl) :: o)) :: rest)) = fl)
    ∧ (∀ s : String, unwrapResponse (.str s) = [])
    ∧ unwrapResponse (.obj []) = []
    ∧ unwrapResponse .null = [] := by
  have himp : hasActiveError data = false →
      search_flights p data = .ok (pyTruncate p.limit (unwrapResponse data)) := by
    intro h
    match data with
    | .null => rfl
    | .bool b => rfl
    | .num q => rfl
    | .str s => rfl
    | .arr l => rfl
    | .obj l =>
      cases he : List.lookup "error" l with
      | none => simp [search_flights, modelGet, he]
      | some e =>
        have ht : pyTruthyJ e = false := by simpa [hasActiveError, he] using h
        simp [search_flights, modelGet, he, ht]
  refine ⟨⟨?_, ?_⟩, himp, fun ef rest c m => rfl, fun rest => rfl, fun v fl rest => rfl,
    fun fl rest => rfl, fun fl rest => rfl, fun l => rfl, fun fl o rest => rfl,
    fun s => rfl, rfl, rfl⟩
  · rintro ⟨e, he⟩
    by_contra hfalse
    have h0 : hasActiveError data = false := by
      cases h : hasActiveError data
      · rfl
      · exact absurd h hfalse
    rw [himp h0] at he
    exact absurd he (by simp)
  · intro hae
    match data, hae with
    | .obj l, hae =>
      cases he : List.lookup "error" l with
      | none => simp [hasActiveError, he] at hae
      | some e =>
        have ht : pyTruthyJ e = true := by simpa [hasActiveError, he] using hae
        match e, ht with
        | .bool b, ht => exact ⟨.attributeError, by simp [search_flights, modelGet, he, ht]⟩
        | .num q, ht => exact ⟨.attributeError, by simp [search_flights, modelGet, he, ht]⟩
        | .str s, ht => exact ⟨.attributeError, by simp [search_flights, modelGet, he, ht]⟩
        | .arr a, ht => exact ⟨.attributeError, by simp [search_flights, modelGet, he, ht]⟩
        | .obj ef, ht =>
          exact ⟨.providerError ((List.lookup "code" ef).getD (.str "unknown_error"))
            ((List.lookup "message" ef).getD (.str "Unknown AirLabs API error")),
            by simp [search_flights, modelGet, he, ht]⟩

/-- C6 witness: a bare-list payload has no error entry, so the call
returns the unwrapped, truncated results. -/
theorem C6_response_unwrapping_witness :
    search_flights ⟨none, none, none, 50⟩ (.arr [.null])
        = .ok (pyTruncate (50 : Int) (unwrapResponse (.arr [.null]))) :=
  (C6_response_unwrapping ⟨none, none, none, 50⟩ (.arr [.null])).2.1 rfl

/-- C4: every returned entry's score is 0.7 times its route's search count
plus 0.3 times its route's summed per-row recency, the per-row recency is
max(0.1, 1/(1 + age/30)) with age clipped at 0 and hence never drops below
0.1, and the result is sorted by score descending and truncated to top_k
entries. -/
theorem C4_popular_routes (now : ℚ) (rows : List SearchHist) (top_k : Nat)
    (hne : rows ≠ []) :
    (∀ e ∈ compute_popular_routes now rows top_k,
        e.count = countOf rows e.route
        ∧ e.recency_score = recencySum now rows e.route
        ∧ e.score = 7 / 10 * (countOf rows e.route : ℚ) + 3 / 10 * recencySum now rows e.route)
    ∧ (compute_popular_routes now rows top_k).Pairwise scoreGE
    ∧ (compute_popular_routes now rows top_k).length = min top_k (routeKeys rows).length
    ∧ (∀ t : ℚ, 1 / 10 ≤ recencyRow now t
        ∧ recencyRow now t = max (1 / 10) (1 / (1 + max 0 ((now - t) / 60) / 30))) := by
  have hE : rows.isEmpty = false := by
    cases rows with
    | nil => exact absurd rfl hne
    | cons r rs => rfl
  have hcpr : compute_popular_routes now rows top_k
      = (List.insertionSort scoreGE (mergedEntries now rows)).take top_k := by
    simp [compute_popular_routes, hE]
  refine ⟨?_, ?_, ?_, ?_⟩
  · intro e he
    rw [hcpr] at he
    have h1 : e ∈ List.insertionSort scoreGE (mergedEntries now rows) :=
      List.take_subset _ _ he
    have h2 : e ∈ mergedEntries now rows :=
      (List.perm_insertionSort scoreGE (mergedEntries now rows)).mem_iff.mp h1
    unfold mergedEntries at h2
    obtain ⟨r, _, rfl⟩ := List.mem_map.mp h2
    exact ⟨rfl, rfl, rfl⟩
  · rw [hcpr]
    exact List.Pairwise.take
      (List.sorted_insertionSort scoreGE (mergedEntries now rows))
  · rw [hcpr, List.length_take,
      (List.perm_insertionSort scoreGE (mergedEntries now rows)).length_eq]
    simp [mergedEntries]
  · intro t
    exact ⟨le_max_left _ _, rfl⟩

/-- C4 witness: a one-row history produces a single entry, within the
top_k = 5 bound. -/
theorem C4_popular_routes_witness :
    (compute_popular_routes 300 [⟨"FRA", "BER", 0⟩] 5).length
      = min 5 (routeKeys [⟨"FRA", "BER", 0⟩]).length :=
  (C4_popular_routes 300 [⟨"FRA", "BER", 0⟩] 5 (List.cons_ne_nil _ _)).2.2.1

theorem stripRows_map_none (l : List (MLRow α)) :
    ((l.map fun r => (⟨r.alt, r.speed, r.extra, none⟩ : MLRowC α)).map
      fun r => (⟨r.alt, r.speed, r.extra⟩ : MLRow α)) = l := by
  induction l with
  | nil => rfl
  | cons r rs ih =>
    simp only [List.map_cons]
    rw [ih]

theorem allClusterNone_map (l : List (MLRow α)) :
    ((l.map fun r => (⟨r.alt, r.speed, r.extra, none⟩ : MLRowC α)).all
      fun r => r.cluster.isNone) = true := by
  induction l with
  | nil => rfl
  | cons r rs ih => simp [ih]

theorem stripRows_assign (labels : List ℤ) (l : List (MLRow α)) :
    ∀ j : Nat, ((assignClusters labels l j).map
      fun r => (⟨r.alt, r.speed, r.extra⟩ : MLRow α)) = l := by
  induction l with
  | nil => intro j; rfl
  | cons r rs ih =>
    intro j
    by_cases hv : validRow r = true
    · simp only [assignClusters]
      rw [if_pos hv]
      simp only [List.map_cons]
      rw [ih]
    · simp only [assignClusters]
      rw [if_neg hv]
      simp only [List.map_cons]
      rw [ih]

/-- C5: when the alt or speed column is missing, or fewer rows than
n_clusters carry both values, the call returns the input dataset with
every cluster cell null ("no value") and no fitted model. -/
theorem C5_cluster_gating {α : Type} (df : MLFrame α) (n : Nat)
    (kfit : List (ℚ × ℚ) → List ℤ)
    (h : (!df.hasAlt || !df.hasSpeed) = true ∨ (df.rows.filter validRow).length < n) :
    stripCluster (cluster_flights_by_alt_speed df n kfit).1 = df
    ∧ ((cluster_flights_by_alt_speed df n kfit).1.rows.all fun r => r.cluster.isNone) = true
    ∧ (cluster_flights_by_alt_speed df n kfit).2 = none := by
  obtain ⟨ha, hs, rows⟩ := df
  unfold cluster_flights_by_alt_speed
  dsimp only
  by_cases h1 : (!ha || !hs) = true
  · rw [if_pos h1]
    refine ⟨?_, allClusterNone_map rows, rfl⟩
    dsimp only [stripCluster]
    rw [stripRows_map_none]
  · have h2 : (rows.filter validRow).length < n := by
      rcases h with h | h
      · exact absurd h h1
      · exact h
    rw [if_neg h1, if_pos h2]
    refine ⟨?_, allClusterNone_map rows, rfl⟩
    dsimp only [stripCluster]
    rw [stripRows_map_none]

/-- C5 witness: a single row missing its speed value cannot support 3
clusters, so the cluster column is all-null and no model comes back. -/
theorem C5_cluster_gating_witness :
    stripCluster (cluster_flights_by_alt_speed
        (⟨true, true, [⟨some 1, none, ()⟩]⟩ : MLFrame Unit) 3 fun _ => []).1
      = (⟨true, true, [⟨some 1, none, ()⟩]⟩ : MLFrame Unit)
    ∧ (((cluster_flights_by_alt_speed
        (⟨true, true, [⟨some 1, none, ()⟩]⟩ : MLFrame Unit) 3 fun _ => []).1.rows.all
        fun r => r.cluster.isNone) = true)
    ∧ (cluster_flights_by_alt_speed
        (⟨true, true, [⟨some 1, none, ()⟩]⟩ : MLFrame Unit) 3 fun _ => []).2 = none :=
  C5_cluster_gating (⟨true, true, [⟨some 1, none, ()⟩]⟩ : MLFrame Unit) 3 (fun _ => [])
    (Or.inr (by decide))

/-- C9: the clustering call never changes the input dataset's columns or
rows — the annotated result, with its added cluster column removed, is the
input itself (the code mutates only its own copy), for every dataset,
cluster count and fitted labelling. -/
theorem C9_cluster_no_mutation {α : Type} (df : MLFrame α) (n : Nat)
    (kfit : List (ℚ × ℚ) → List ℤ) :
    stripCluster (cluster_flights_by_alt_speed df n kfit).1 = df := by
  obtain ⟨ha, hs, rows⟩ := df
  unfold cluster_flights_by_alt_speed
  dsimp only
  by_cases h1 : (!ha || !hs) = true
  · rw [if_pos h1]
    dsimp only [stripCluster]
    rw [stripRows_map_none]
  · rw [if_neg h1]
    by_cases h2 : (rows.filter validRow).length < n
    · rw [if_pos h2]
      dsimp only [stripCluster]
      rw [stripRows_map_none]
    · rw [if_neg h2]
      dsimp only [stripCluster]
      rw [stripRows_assign]

theorem insertLoop_error_durable (sid : Nat) (failAt : Option Nat) :
    ∀ (l : List FlatRow) (j : Nat) (c cf : Conn),
      insertLoop sid failAt l j c = .error cf → cf.durable = c.durable := by
  intro l
  induction l with
  | nil =>
    intro j c cf h
    simp [insertLoop] at h
  | cons r rs ih =>
    intro j c cf h
    by_cases hj : failAt = some j
    · simp only [insertLoop] at h
      rw [if_pos hj] at h
      cases h
      rfl
    · simp only [insertLoop] at h
      rw [if_neg hj] at h
      exact ih (j + 1) (execInsertFlight c sid r) cf h

theorem insertLoop_fails (sid k : Nat) :
    ∀ (l : List FlatRow) (j : Nat) (c : Conn),
      j ≤ k → k < j + l.length →
      ∃ cf, insertLoop sid (some k) l j c = .error cf := by
  intro l
  induction l with
  | nil =>
    intro j c h1 h2
    exfalso
    simp only [List.length_nil] at h2
    omega
  | cons r rs ih =>
    intro j c h1 h2
    by_cases hj : k = j
    · refine ⟨c, ?_⟩
      simp only [insertLoop]
      rw [if_pos (by rw [hj])]
    · obtain ⟨cf, hcf⟩ := ih (j + 1) (execInsertFlight c sid r) (by omega)
        (by simp only [List.length_cons] at h2; omega)
      refine ⟨cf, ?_⟩
      simp only [insertLoop]
      rw [if_neg (fun hh => hj (Option.some.inj hh))]
      exact hcf

/-- C3 counterexample: on an empty database, logging a two-row dataset
with the bulk insert failing at its second row commits nothing — the call
errors out and the durable database still has no searches row at all,
where the claim says the searches row can remain committed. -/
theorem C3_counterexample :
    log_call ⟨[], [], 1, 1⟩ none none none 50
        (some [⟨none, none, none, none, none, none, none, none, none, none, none, none,
          none, none, none⟩,
          ⟨none, none, none, none, none, none, none, none, none, none, none, none,
          none, none, none⟩]) "2026-01-01T00:00:00Z" (some 1)
      = (.error (), ⟨[], [], 1, 1⟩)
    ∧ (⟨[], [], 1, 1⟩ : DB).searches = [] :=
  ⟨rfl, rfl⟩

/-- C3 amended: a failure partway through the bulk flight insert aborts
the call before its single commit, so neither the searches row nor any
flights rows become durable — the committed database is exactly the
pre-call database (no orphan searches row can arise this way). -/
theorem C3_midfail_rollback (db : DB) (dep arr code : Option String) (lim : Int)
    (fdf : Option (List FlatRow)) (ts : String) (k : Nat)
    (hk : k < resultsCount fdf) :
    log_call db dep arr code lim fdf ts (some k) = (.error (), db) := by
  rcases fdf with _ | l
  · simp [resultsCount] at hk
  · have hcnt : 0 < resultsCount (some l) := Nat.lt_of_le_of_lt (Nat.zero_le k) hk
    obtain ⟨cf, hcf⟩ := insertLoop_fails
      (execInsertSearch (openConn db) ⟨db.nextSearchId, ts, dep, arr, code, lim,
        resultsCount (some l)⟩).2 k l 0
      (execInsertSearch (openConn db) ⟨db.nextSearchId, ts, dep, arr, code, lim,
        resultsCount (some l)⟩).1
      (Nat.zero_le k) (by simpa [resultsCount] using hk)
    have hdur := insertLoop_error_durable _ _ _ _ _ _ hcf
    unfold log_call
    dsimp only
    rw [if_pos hcnt]
    simp only [Option.getD] at hcf ⊢
    rw [hcf]
    show ((Except.error (), cf.durable) : Except Unit Nat × DB) = (.error (), db)
    rw [hdur]
    rfl

/-- C3 witness: a one-row dataset failing at row 0 leaves the durable
database untouched. -/
theorem C3_midfail_rollback_witness :
    log_call ⟨[], [], 5, 7⟩ (some "FRA") none none 10
        (some [⟨none, none, none, none, none, none, none, none, none, none, none, none,
          none, none, none⟩]) "2026-02-02T00:00:00Z" (some 0)
      = (.error (), ⟨[], [], 5, 7⟩) :=
  C3_midfail_rollback ⟨[], [], 5, 7⟩ (some "FRA") none none 10
    (some [⟨none, none, none, none, none, none, none, none, none, none, none, none,
      none, none, none⟩]) "2026-02-02T00:00:00Z" 0 (by decide)
